import Mathlib

/-
Verification of the emissions calculator in scripts/01_historical_scopes.py.

The script reads one spreadsheet row per fiscal year, renames the columns
through COLUMN_MAPPING, normalizes the clinker ratio by a batch-wide
heuristic, and derives the Scope 1 / Scope 2 / Scope 3 emission columns by
row-wise arithmetic.  Numeric cells are modelled as exact rationals; the
pandas float columns perform the same field-by-field arithmetic, and every
identity checked here is an identity of that arithmetic, not of rounding.
A second model (namespace FloatModel) adds the IEEE-754 special values
NaN and the infinities, which the script produces instead of raising on
missing cells and zero capacities.
-/

namespace HistoricalScopes

/-- One input row after the COLUMN_MAPPING renaming step of the script
(lines 77 to 99).  Field names are the standardized column names. -/
structure YearlyRecord where
  year : ℚ
  cement_t : ℚ
  local_t : ℚ
  total_exp_t : ℚ
  exp_s_t : ℚ
  exp_n_t : ℚ
  coal_int_kgpt : ℚ
  elec_int_kwhpt : ℚ
  clinker_ratio : ℚ
  ncv : ℚ
  co2_ef_tco2_per_tj : ℚ
  oxid_frac : ℚ
  calc_ef : ℚ
  grid_ef_kg_per_kwh : ℚ
  cap_allowed_t : ℚ
  cap_over_t : ℚ
  ef_allowed_gpkm : ℚ
  ef_over_gpkm : ℚ
  dist_local_km : ℚ
  dist_exp_n_km : ℚ
  dist_exp_s_km : ℚ
deriving DecidableEq

/-- Configuration flag of the script (line 24): the calcination emission
factor is taken to be per ton of clinker. -/
def CALC_EF_IS_PER_CLINKER : Bool := true

/-- Weighted split for Scope 3 trucking, overloaded share (line 27). -/
def OVERLOAD_FRAC : ℚ := 0.60

/-- Weighted split for Scope 3 trucking, allowed-load share (line 28). -/
def ALLOWED_FRAC : ℚ := 0.40

/-- Scope 1a, coal combustion emissions (script lines 144 to 150). -/
def scope1a_combustion_tco2 (r : YearlyRecord) : ℚ :=
  r.coal_int_kgpt * r.cement_t * r.ncv * r.co2_ef_tco2_per_tj * r.oxid_frac / 1000000

/-- Clinker tonnage, cement production times clinker ratio (line 158). -/
def clinker_t (r : YearlyRecord) : ℚ :=
  r.cement_t * r.clinker_ratio

/-- Scope 1b, calcination emissions (lines 156 to 164): on the clinker
basis when CALC_EF_IS_PER_CLINKER is set, else on the cement basis. -/
def scope1b_calcination_tco2 (r : YearlyRecord) : ℚ :=
  if CALC_EF_IS_PER_CLINKER then clinker_t r * r.calc_ef else r.cement_t * r.calc_ef

/-- Scope 1 total (line 167). -/
def scope1_total_tco2 (r : YearlyRecord) : ℚ :=
  scope1a_combustion_tco2 r + scope1b_calcination_tco2 r

/-- Scope 2, purchased electricity emissions (lines 181 to 185). -/
def scope2_electricity_tco2 (r : YearlyRecord) : ℚ :=
  r.elec_int_kwhpt * r.cement_t * r.grid_ef_kg_per_kwh / 1000

/-- Trip count for local dispatches at the allowed load (line 201). -/
def trips_local_allowed (r : YearlyRecord) : ℚ :=
  r.local_t / r.cap_allowed_t

/-- Trip count for local dispatches at the overload (line 202). -/
def trips_local_over (r : YearlyRecord) : ℚ :=
  r.local_t / r.cap_over_t

/-- Local-leg emissions in grams for allowed-load trucks (lines 203-205). -/
def scope3_local_allowed_kgco2 (r : YearlyRecord) : ℚ :=
  trips_local_allowed r * r.dist_local_km * r.ef_allowed_gpkm

/-- Local-leg emissions in grams for overloaded trucks (lines 206-208). -/
def scope3_local_over_kgco2 (r : YearlyRecord) : ℚ :=
  trips_local_over r * r.dist_local_km * r.ef_over_gpkm

/-- Scope 3 local leg in tonnes, weighted split then grams to tonnes
(lines 209 to 212). -/
def scope3_local_tco2 (r : YearlyRecord) : ℚ :=
  (ALLOWED_FRAC * scope3_local_allowed_kgco2 r +
    OVERLOAD_FRAC * scope3_local_over_kgco2 r) / 1000000

/-- Trip count for north exports at the allowed load (line 217). -/
def trips_exp_n_allowed (r : YearlyRecord) : ℚ :=
  r.exp_n_t / r.cap_allowed_t

/-- Trip count for north exports at the overload (line 218). -/
def trips_exp_n_over (r : YearlyRecord) : ℚ :=
  r.exp_n_t / r.cap_over_t

/-- North-export emissions in grams for allowed-load trucks (lines 219-221). -/
def scope3_exp_n_allowed_kgco2 (r : YearlyRecord) : ℚ :=
  trips_exp_n_allowed r * r.dist_exp_n_km * r.ef_allowed_gpkm

/-- North-export emissions in grams for overloaded trucks (lines 222-224). -/
def scope3_exp_n_over_kgco2 (r : YearlyRecord) : ℚ :=
  trips_exp_n_over r * r.dist_exp_n_km * r.ef_over_gpkm

/-- Scope 3 north-export leg in tonnes (lines 225 to 228). -/
def scope3_exp_n_tco2 (r : YearlyRecord) : ℚ :=
  (ALLOWED_FRAC * scope3_exp_n_allowed_kgco2 r +
    OVERLOAD_FRAC * scope3_exp_n_over_kgco2 r) / 1000000

/-- Trip count for south exports at the allowed load (line 233). -/
def trips_exp_s_allowed (r : YearlyRecord) : ℚ :=
  r.exp_s_t / r.cap_allowed_t

/-- Trip count for south exports at the overload (line 234). -/
def trips_exp_s_over (r : YearlyRecord) : ℚ :=
  r.exp_s_t / r.cap_over_t

/-- South-export emissions in grams for allowed-load trucks (lines 235-237). -/
def scope3_exp_s_allowed_kgco2 (r : YearlyRecord) : ℚ :=
  trips_exp_s_allowed r * r.dist_exp_s_km * r.ef_allowed_gpkm

/-- South-export emissions in grams for overloaded trucks (lines 238-240). -/
def scope3_exp_s_over_kgco2 (r : YearlyRecord) : ℚ :=
  trips_exp_s_over r * r.dist_exp_s_km * r.ef_over_gpkm

/-- Scope 3 south-export leg in tonnes (lines 241 to 244). -/
def scope3_exp_s_tco2 (r : YearlyRecord) : ℚ :=
  (ALLOWED_FRAC * scope3_exp_s_allowed_kgco2 r +
    OVERLOAD_FRAC * scope3_exp_s_over_kgco2 r) / 1000000

/-- Scope 3 total over the three legs (lines 249 to 253). -/
def scope3_total_tco2 (r : YearlyRecord) : ℚ :=
  scope3_local_tco2 r + scope3_exp_n_tco2 r + scope3_exp_s_tco2 r

/-- Total emissions (lines 265 to 269). -/
def total_emissions_tco2 (r : YearlyRecord) : ℚ :=
  scope1_total_tco2 r + scope2_electricity_tco2 r + scope3_total_tco2 r

/-- Maximum of the clinker_ratio column, as the pandas max over the rows:
none on an empty batch, where pandas yields NaN and the comparison on
line 125 is false. -/
def clinkerMax : List YearlyRecord → Option ℚ
  | [] => none
  | r :: rs =>
      some (match clinkerMax rs with
            | none => r.clinker_ratio
            | some m => max r.clinker_ratio m)

/-- The batch-wide percentage heuristic of line 125: rescale exactly when
the column maximum exceeds 1.5. -/
def needsClinkerRescale (batch : List YearlyRecord) : Bool :=
  match clinkerMax batch with
  | none => false
  | some m => decide ((3 : ℚ) / 2 < m)

/-- The per-row effect of line 127: divide clinker_ratio by 100. -/
def rescaleClinker (r : YearlyRecord) : YearlyRecord :=
  { r with clinker_ratio := r.clinker_ratio / 100 }

/-- Lines 125 to 127: when the column maximum exceeds 1.5, every row of the
batch has its clinker_ratio divided by 100; otherwise no row is changed. -/
def normalizeClinker (batch : List YearlyRecord) : List YearlyRecord :=
  if needsClinkerRescale batch then batch.map rescaleClinker else batch

/-- One output row, in the column order of output_columns (lines 289 to
305): the six pass-through columns, then the nine derived columns. -/
structure OutputRow where
  year : ℚ
  cement_t : ℚ
  local_t : ℚ
  exp_n_t : ℚ
  exp_s_t : ℚ
  total_exp_t : ℚ
  scope1a_combustion_tco2 : ℚ
  scope1b_calcination_tco2 : ℚ
  scope1_total_tco2 : ℚ
  scope2_electricity_tco2 : ℚ
  scope3_local_tco2 : ℚ
  scope3_exp_n_tco2 : ℚ
  scope3_exp_s_tco2 : ℚ
  scope3_total_tco2 : ℚ
  total_emissions_tco2 : ℚ
deriving DecidableEq

/-- The output row derived from one (already normalized) input row. -/
def outputRow (r : YearlyRecord) : OutputRow :=
  { year := r.year
    cement_t := r.cement_t
    local_t := r.local_t
    exp_n_t := r.exp_n_t
    exp_s_t := r.exp_s_t
    total_exp_t := r.total_exp_t
    scope1a_combustion_tco2 := scope1a_combustion_tco2 r
    scope1b_calcination_tco2 := scope1b_calcination_tco2 r
    scope1_total_tco2 := scope1_total_tco2 r
    scope2_electricity_tco2 := scope2_electricity_tco2 r
    scope3_local_tco2 := scope3_local_tco2 r
    scope3_exp_n_tco2 := scope3_exp_n_tco2 r
    scope3_exp_s_tco2 := scope3_exp_s_tco2 r
    scope3_total_tco2 := scope3_total_tco2 r
    total_emissions_tco2 := total_emissions_tco2 r }

/-- The whole batch transform of script 01: clean and normalize (step 4),
then derive the emission columns row by row (steps 5 to 8) and select the
output columns (step 9). -/
def runPipeline (batch : List YearlyRecord) : List OutputRow :=
  (normalizeClinker batch).map outputRow

namespace FloatModel

/-
The script computes on pandas float64 columns.  A missing spreadsheet
cell becomes NaN, and numpy division of a nonzero value by zero yields a
signed infinity (0/0 yields NaN) with at most a runtime warning; no
exception is raised anywhere in the script.  Val is the value domain of
that arithmetic with finite values kept exact.
-/

/-- A float64 cell value: a finite number, NaN, or a signed infinity. -/
inductive Val where
  | num (q : ℚ)
  | nan
  | inf
  | neginf
deriving DecidableEq

/-- Float addition on Val, following IEEE-754. -/
def vadd : Val → Val → Val
  | .nan, _ => .nan
  | _, .nan => .nan
  | .inf, .neginf => .nan
  | .neginf, .inf => .nan
  | .inf, _ => .inf
  | _, .inf => .inf
  | .neginf, _ => .neginf
  | _, .neginf => .neginf
  | .num a, .num b => .num (a + b)

/-- Float multiplication on Val, following IEEE-754: an infinity times
zero is NaN, otherwise signs multiply. -/
def vmul : Val → Val → Val
  | .nan, _ => .nan
  | _, .nan => .nan
  | .inf, .inf => .inf
  | .inf, .neginf => .neginf
  | .neginf, .inf => .neginf
  | .neginf, .neginf => .inf
  | .inf, .num b => if 0 < b then .inf else if b < 0 then .neginf else .nan
  | .num a, .inf => if 0 < a then .inf else if a < 0 then .neginf else .nan
  | .neginf, .num b => if 0 < b then .neginf else if b < 0 then .inf else .nan
  | .num a, .neginf => if 0 < a then .neginf else if a < 0 then .inf else .nan
  | .num a, .num b => .num (a * b)

/-- Float division on Val, following IEEE-754 and numpy: a nonzero finite
value over zero is a signed infinity, zero over zero is NaN. -/
def vdiv : Val → Val → Val
  | .nan, _ => .nan
  | _, .nan => .nan
  | .inf, .inf => .nan
  | .inf, .neginf => .nan
  | .neginf, .inf => .nan
  | .neginf, .neginf => .nan
  | .inf, .num b => if b < 0 then .neginf else .inf
  | .neginf, .num b => if b < 0 then .inf else .neginf
  | .num _, .inf => .num 0
  | .num _, .neginf => .num 0
  | .num a, .num b =>
      if b = 0 then (if 0 < a then .inf else if a < 0 then .neginf else .nan)
      else .num (a / b)

/-- An input row as read into float64 columns: a missing cell is NaN. -/
structure RawRecord where
  year : Val
  cement_t : Val
  local_t : Val
  total_exp_t : Val
  exp_s_t : Val
  exp_n_t : Val
  coal_int_kgpt : Val
  elec_int_kwhpt : Val
  clinker_ratio : Val
  ncv : Val
  co2_ef_tco2_per_tj : Val
  oxid_frac : Val
  calc_ef : Val
  grid_ef_kg_per_kwh : Val
  cap_allowed_t : Val
  cap_over_t : Val
  ef_allowed_gpkm : Val
  ef_over_gpkm : Val
  dist_local_km : Val
  dist_exp_n_km : Val
  dist_exp_s_km : Val
deriving DecidableEq

/-- The cells of a row in column order, for the isnull scan of line 117. -/
def cells (r : RawRecord) : List Val :=
  [r.year, r.cement_t, r.local_t, r.total_exp_t, r.exp_s_t, r.exp_n_t,
   r.coal_int_kgpt, r.elec_int_kwhpt, r.clinker_ratio, r.ncv,
   r.co2_ef_tco2_per_tj, r.oxid_frac, r.calc_ef, r.grid_ef_kg_per_kwh,
   r.cap_allowed_t, r.cap_over_t, r.ef_allowed_gpkm, r.ef_over_gpkm,
   r.dist_local_km, r.dist_exp_n_km, r.dist_exp_s_km]

/-- Number of missing cells in one row (part of df.isnull().sum()). -/
def nullCount (r : RawRecord) : Nat :=
  (cells r).countP (fun v => decide (v = Val.nan))

/-- Missing-cell count of one column over the batch, the per-column entry
of the series `missing` on line 117. -/
def missingCount (batch : List RawRecord) (f : RawRecord → Val) : Nat :=
  batch.countP (fun r => decide (f r = Val.nan))

/-- Total number of missing cells in the batch, the `missing.sum()` that
line 118 compares with zero. -/
def missingTotal (batch : List RawRecord) : Nat :=
  (batch.map nullCount).sum

/-- Whether the script prints the missing-values warning (lines 118-120);
either way the script continues to the calculation steps. -/
def missingWarning (batch : List RawRecord) : Bool :=
  decide (0 < missingTotal batch)

/-- Pairwise maximum as pandas max takes it: NaN is skipped. -/
def vmaxPair : Val → Val → Val
  | .nan, w => w
  | v, .nan => v
  | .inf, _ => .inf
  | _, .inf => .inf
  | .neginf, w => w
  | v, .neginf => v
  | .num a, .num b => .num (max a b)

/-- Column maximum of clinker_ratio over the batch (line 125); NaN when
the batch is empty or every cell is missing. -/
def clinkerMax : List RawRecord → Val
  | [] => .nan
  | r :: rs => vmaxPair r.clinker_ratio (clinkerMax rs)

/-- The comparison of line 125 in float semantics: NaN compares false. -/
def needsClinkerRescale (batch : List RawRecord) : Bool :=
  match clinkerMax batch with
  | .num m => decide ((3 : ℚ) / 2 < m)
  | .inf => true
  | _ => false

/-- The per-row effect of line 127 in float arithmetic. -/
def rescaleClinker (r : RawRecord) : RawRecord :=
  { r with clinker_ratio := vdiv r.clinker_ratio (Val.num 100) }

/-- Lines 125 to 127 on the float columns. -/
def normalizeClinker (batch : List RawRecord) : List RawRecord :=
  if needsClinkerRescale batch then batch.map rescaleClinker else batch

/-- Scope 1a on float values (lines 144 to 150). -/
def scope1a_combustion_tco2 (r : RawRecord) : Val :=
  vdiv (vmul (vmul (vmul (vmul r.coal_int_kgpt r.cement_t) r.ncv)
    r.co2_ef_tco2_per_tj) r.oxid_frac) (Val.num 1000000)

/-- Clinker tonnage on float values (line 158). -/
def clinker_t (r : RawRecord) : Val :=
  vmul r.cement_t r.clinker_ratio

/-- Scope 1b on float values (lines 156 to 164). -/
def scope1b_calcination_tco2 (r : RawRecord) : Val :=
  if CALC_EF_IS_PER_CLINKER then vmul (clinker_t r) r.calc_ef
  else vmul r.cement_t r.calc_ef

/-- Scope 1 total on float values (line 167). -/
def scope1_total_tco2 (r : RawRecord) : Val :=
  vadd (scope1a_combustion_tco2 r) (scope1b_calcination_tco2 r)

/-- Scope 2 on float values (lines 181 to 185). -/
def scope2_electricity_tco2 (r : RawRecord) : Val :=
  vdiv (vmul (vmul r.elec_int_kwhpt r.cement_t) r.grid_ef_kg_per_kwh)
    (Val.num 1000)

/-- Local trips at allowed load on float values (line 201). -/
def trips_local_allowed (r : RawRecord) : Val :=
  vdiv r.local_t r.cap_allowed_t

/-- Local trips at overload on float values (line 202). -/
def trips_local_over (r : RawRecord) : Val :=
  vdiv r.local_t r.cap_over_t

/-- Local leg grams at allowed load on float values (lines 203-205). -/
def scope3_local_allowed_kgco2 (r : RawRecord) : Val :=
  vmul (vmul (trips_local_allowed r) r.dist_local_km) r.ef_allowed_gpkm

/-- Local leg grams at overload on float values (lines 206-208). -/
def scope3_local_over_kgco2 (r : RawRecord) : Val :=
  vmul (vmul (trips_local_over r) r.dist_local_km) r.ef_over_gpkm

/-- Scope 3 local leg on float values (lines 209 to 212). -/
def scope3_local_tco2 (r : RawRecord) : Val :=
  vdiv (vadd (vmul (Val.num ALLOWED_FRAC) (scope3_local_allowed_kgco2 r))
    (vmul (Val.num OVERLOAD_FRAC) (scope3_local_over_kgco2 r))) (Val.num 1000000)

/-- Scope 3 north-export leg on float values (lines 217 to 228). -/
def scope3_exp_n_tco2 (r : RawRecord) : Val :=
  vdiv (vadd
    (vmul (Val.num ALLOWED_FRAC)
      (vmul (vmul (vdiv r.exp_n_t r.cap_allowed_t) r.dist_exp_n_km) r.ef_allowed_gpkm))
    (vmul (Val.num OVERLOAD_FRAC)
      (vmul (vmul (vdiv r.exp_n_t r.cap_over_t) r.dist_exp_n_km) r.ef_over_gpkm)))
    (Val.num 1000000)

/-- Scope 3 south-export leg on float values (lines 233 to 244). -/
def scope3_exp_s_tco2 (r : RawRecord) : Val :=
  vdiv (vadd
    (vmul (Val.num ALLOWED_FRAC)
      (vmul (vmul (vdiv r.exp_s_t r.cap_allowed_t) r.dist_exp_s_km) r.ef_allowed_gpkm))
    (vmul (Val.num OVERLOAD_FRAC)
      (vmul (vmul (vdiv r.exp_s_t r.cap_over_t) r.dist_exp_s_km) r.ef_over_gpkm)))
    (Val.num 1000000)

/-- Scope 3 total on float values (lines 249 to 253). -/
def scope3_total_tco2 (r : RawRecord) : Val :=
  vadd (vadd (scope3_local_tco2 r) (scope3_exp_n_tco2 r)) (scope3_exp_s_tco2 r)

/-- Total emissions on float values (lines 265 to 269). -/
def total_emissions_tco2 (r : RawRecord) : Val :=
  vadd (vadd (scope1_total_tco2 r) (scope2_electricity_tco2 r)) (scope3_total_tco2 r)

/-- One float output row: the pass-through columns and the derived
columns of output_columns (lines 289 to 305). -/
structure FloatOutput where
  year : Val
  cement_t : Val
  local_t : Val
  exp_n_t : Val
  exp_s_t : Val
  total_exp_t : Val
  scope1a_combustion_tco2 : Val
  scope1b_calcination_tco2 : Val
  scope1_total_tco2 : Val
  scope2_electricity_tco2 : Val
  scope3_local_tco2 : Val
  scope3_exp_n_tco2 : Val
  scope3_exp_s_tco2 : Val
  scope3_total_tco2 : Val
  total_emissions_tco2 : Val
deriving DecidableEq

/-- The float output row derived from one normalized float input row. -/
def floatOutputRow (r : RawRecord) : FloatOutput :=
  { year := r.year
    cement_t := r.cement_t
    local_t := r.local_t
    exp_n_t := r.exp_n_t
    exp_s_t := r.exp_s_t
    total_exp_t := r.total_exp_t
    scope1a_combustion_tco2 := scope1a_combustion_tco2 r
    scope1b_calcination_tco2 := scope1b_calcination_tco2 r
    scope1_total_tco2 := scope1_total_tco2 r
    scope2_electricity_tco2 := scope2_electricity_tco2 r
    scope3_local_tco2 := scope3_local_tco2 r
    scope3_exp_n_tco2 := scope3_exp_n_tco2 r
    scope3_exp_s_tco2 := scope3_exp_s_tco2 r
    scope3_total_tco2 := scope3_total_tco2 r
    total_emissions_tco2 := total_emissions_tco2 r }

/-- The whole batch transform of script 01 on float columns.  The missing
check of lines 117-122 only prints; it never stops the batch, so the
transform is total. -/
def floatPipeline (batch : List RawRecord) : List FloatOutput :=
  (normalizeClinker batch).map floatOutputRow

end FloatModel

/-- A concrete valid input row.  Its fuel fields are the Scope 1a example
inputs of the spec (cement 1,000,000 t, coal 100 kg/t, ncv 0.025,
combustion EF 94.6, oxidized fraction 0.98) and its logistics fields are
the Scope 3 example inputs (local 500,000 t, capacities 20 t and 25 t,
local distance 50 km, truck EFs 900 g/km). -/
def baseRecord : YearlyRecord :=
  { year := 2020
    cement_t := 1000000
    local_t := 500000
    total_exp_t := 700000
    exp_s_t := 300000
    exp_n_t := 400000
    coal_int_kgpt := 100
    elec_int_kwhpt := 90
    clinker_ratio := 7 / 10
    ncv := 1 / 40
    co2_ef_tco2_per_tj := 473 / 5
    oxid_frac := 49 / 50
    calc_ef := 1 / 2
    grid_ef_kg_per_kwh := 9 / 20
    cap_allowed_t := 20
    cap_over_t := 25
    ef_allowed_gpkm := 900
    ef_over_gpkm := 900
    dist_local_km := 50
    dist_exp_n_km := 1000
    dist_exp_s_km := 800 }

/-- A base-record variant with all three leg tonnages zero. -/
def zeroTonnageRecord : YearlyRecord :=
  { baseRecord with local_t := 0, exp_n_t := 0, exp_s_t := 0 }

/-- A base-record variant whose clinker_ratio is entered as a percentage. -/
def r_C2 : YearlyRecord :=
  { baseRecord with clinker_ratio := 70 }

/-- A second percentage-form row sharing the batch with r_C2. -/
def s_C2 : YearlyRecord :=
  { baseRecord with clinker_ratio := 80 }

/-- A valid base-record variant whose coal intensity, electricity
intensity and calcination factor are all zero. -/
def r_C8 : YearlyRecord :=
  { baseRecord with coal_int_kgpt := 0, elec_int_kwhpt := 0, calc_ef := 0 }

/-- The record r_C8 with doubled cement production and every other input
field unchanged. -/
def r_C8' : YearlyRecord :=
  { r_C8 with cement_t := 2000000 }

/-- A base-record variant whose reported total exports disagree with the
sum of the two export legs (710,000 against 400,000 + 300,000). -/
def r_C10 : YearlyRecord :=
  { baseRecord with total_exp_t := 710000 }

/-- All numeric input fields of a record are non-negative. -/
abbrev NonnegInputs (r : YearlyRecord) : Prop :=
  0 ≤ r.year ∧ 0 ≤ r.cement_t ∧ 0 ≤ r.local_t ∧ 0 ≤ r.total_exp_t ∧
  0 ≤ r.exp_s_t ∧ 0 ≤ r.exp_n_t ∧ 0 ≤ r.coal_int_kgpt ∧ 0 ≤ r.elec_int_kwhpt ∧
  0 ≤ r.clinker_ratio ∧ 0 ≤ r.ncv ∧ 0 ≤ r.co2_ef_tco2_per_tj ∧ 0 ≤ r.oxid_frac ∧
  0 ≤ r.calc_ef ∧ 0 ≤ r.grid_ef_kg_per_kwh ∧ 0 ≤ r.cap_allowed_t ∧
  0 ≤ r.cap_over_t ∧ 0 ≤ r.ef_allowed_gpkm ∧ 0 ≤ r.ef_over_gpkm ∧
  0 ≤ r.dist_local_km ∧ 0 ≤ r.dist_exp_n_km ∧ 0 ≤ r.dist_exp_s_km

/-- The six pass-through output columns carry the input values. -/
def passThrough (r : YearlyRecord) (o : OutputRow) : Prop :=
  o.year = r.year ∧ o.cement_t = r.cement_t ∧ o.local_t = r.local_t ∧
  o.exp_n_t = r.exp_n_t ∧ o.exp_s_t = r.exp_s_t ∧ o.total_exp_t = r.total_exp_t

namespace FloatModel

/-- A float input row with every cell present; the same values as the
base record. -/
def presentRow : RawRecord :=
  { year := .num 2020
    cement_t := .num 1000000
    local_t := .num 500000
    total_exp_t := .num 700000
    exp_s_t := .num 300000
    exp_n_t := .num 400000
    coal_int_kgpt := .num 100
    elec_int_kwhpt := .num 90
    clinker_ratio := .num (7 / 10)
    ncv := .num (1 / 40)
    co2_ef_tco2_per_tj := .num (473 / 5)
    oxid_frac := .num (49 / 50)
    calc_ef := .num (1 / 2)
    grid_ef_kg_per_kwh := .num (9 / 20)
    cap_allowed_t := .num 20
    cap_over_t := .num 25
    ef_allowed_gpkm := .num 900
    ef_over_gpkm := .num 900
    dist_local_km := .num 50
    dist_exp_n_km := .num 1000
    dist_exp_s_km := .num 800 }

/-- The present row with its grid electricity EF cell missing. -/
def missingGridRow : RawRecord :=
  { presentRow with grid_ef_kg_per_kwh := .nan }

/-- The present row with a zero allowed-load truck capacity. -/
def zeroCapAllowedRow : RawRecord :=
  { presentRow with cap_allowed_t := .num 0 }

/-- The present row with a zero overload truck capacity. -/
def zeroCapOverRow : RawRecord :=
  { presentRow with cap_over_t := .num 0 }

/-- The present row with a zero allowed-load capacity and zero local
tonnage, so the local trip count is a 0/0 division. -/
def zeroCapZeroTonnageRow : RawRecord :=
  { presentRow with cap_allowed_t := .num 0, local_t := .num 0 }

end FloatModel

/-- C1 counterexample: on the spec example inputs the Scope 1a formula of
the code returns exactly 231.77 tCO2, which is below a hundredth of the
231,770 tCO2 the claim states, so the output is not approximately
231,770. -/
theorem C1_example_not_231770 :
    scope1a_combustion_tco2 baseRecord = 23177 / 100 ∧
    (23177 / 100 : ℚ) * 100 < 231770 := by
  constructor
  · norm_num [scope1a_combustion_tco2, baseRecord]
  · norm_num

/-- C1 amended: for the inputs cement_t = 1,000,000, coal_int_kgpt = 100,
ncv = 0.025, co2_ef_tco2_per_tj = 94.6, oxid_frac = 0.98, the Scope 1a
combustion output of the calculator is exactly 231.77 tCO2 (the
expression quoted by the spec evaluates to 231.77, not to 231,770). -/
theorem C1_scope1a_example_value (r : YearlyRecord)
    (hcem : r.cement_t = 1000000) (hcoal : r.coal_int_kgpt = 100)
    (hncv : r.ncv = 1 / 40) (hef : r.co2_ef_tco2_per_tj = 473 / 5)
    (hox : r.oxid_frac = 49 / 50) :
    scope1a_combustion_tco2 r = 23177 / 100 := by
  rw [scope1a_combustion_tco2, hcem, hcoal, hncv, hef, hox]
  norm_num

/-- C1 witness: the amended statement evaluated on the base record. -/
theorem C1_scope1a_example_value_witness :
    scope1a_combustion_tco2 baseRecord = 23177 / 100 :=
  C1_scope1a_example_value baseRecord rfl rfl rfl rfl rfl

/-- C5: for every record the total output is exactly the sum of the Scope
1 total, the Scope 2 output and the Scope 3 total, where the Scope 1
total is Scope 1a plus Scope 1b and the Scope 3 total is the sum of the
local, north-export and south-export legs. -/
theorem C5_total_is_sum_of_scopes (r : YearlyRecord) :
    total_emissions_tco2 r =
      scope1_total_tco2 r + scope2_electricity_tco2 r + scope3_total_tco2 r ∧
    scope1_total_tco2 r = scope1a_combustion_tco2 r + scope1b_calcination_tco2 r ∧
    scope3_total_tco2 r = scope3_local_tco2 r + scope3_exp_n_tco2 r + scope3_exp_s_tco2 r :=
  ⟨rfl, rfl, rfl⟩

/-- C6: for every record with non-zero truck capacities, each Scope 3 leg
equals the weighted formula of the spec, and on the example inputs
(local 500,000 t, capacities 20 and 25, distance 50 km, both truck EFs
900 g/km, split 0.4 and 0.6) the local leg is exactly 990 tCO2. -/
theorem C6_scope3_leg_formula (r : YearlyRecord)
    (_ha : r.cap_allowed_t ≠ 0) (_ho : r.cap_over_t ≠ 0) :
    (scope3_local_tco2 r =
      (ALLOWED_FRAC * (r.local_t / r.cap_allowed_t) * r.dist_local_km * r.ef_allowed_gpkm +
        OVERLOAD_FRAC * (r.local_t / r.cap_over_t) * r.dist_local_km * r.ef_over_gpkm)
        / 1000000) ∧
    (scope3_exp_n_tco2 r =
      (ALLOWED_FRAC * (r.exp_n_t / r.cap_allowed_t) * r.dist_exp_n_km * r.ef_allowed_gpkm +
        OVERLOAD_FRAC * (r.exp_n_t / r.cap_over_t) * r.dist_exp_n_km * r.ef_over_gpkm)
        / 1000000) ∧
    (scope3_exp_s_tco2 r =
      (ALLOWED_FRAC * (r.exp_s_t / r.cap_allowed_t) * r.dist_exp_s_km * r.ef_allowed_gpkm +
        OVERLOAD_FRAC * (r.exp_s_t / r.cap_over_t) * r.dist_exp_s_km * r.ef_over_gpkm)
        / 1000000) ∧
    scope3_local_tco2 baseRecord = 990 := by
  refine ⟨?_, ?_, ?_, by
    norm_num [scope3_local_tco2, scope3_local_allowed_kgco2, scope3_local_over_kgco2,
      trips_local_allowed, trips_local_over, ALLOWED_FRAC, OVERLOAD_FRAC, baseRecord]⟩
  · unfold scope3_local_tco2 scope3_local_allowed_kgco2 scope3_local_over_kgco2
      trips_local_allowed trips_local_over
    ring
  · unfold scope3_exp_n_tco2 scope3_exp_n_allowed_kgco2 scope3_exp_n_over_kgco2
      trips_exp_n_allowed trips_exp_n_over
    ring
  · unfold scope3_exp_s_tco2 scope3_exp_s_allowed_kgco2 scope3_exp_s_over_kgco2
      trips_exp_s_allowed trips_exp_s_over
    ring

/-- C6 witness: the hypotheses and the concrete leg value on the base
record. -/
theorem C6_scope3_leg_formula_witness :
    baseRecord.cap_allowed_t ≠ 0 ∧ baseRecord.cap_over_t ≠ 0 ∧
    scope3_local_tco2 baseRecord = 990 :=
  ⟨by decide, by decide,
    (C6_scope3_leg_formula baseRecord (by decide) (by decide)).2.2.2⟩

/-- C9: a record whose three leg tonnages are zero has Scope 3 total
zero, whatever the distances and the truck emission factors are. -/
theorem C9_zero_tonnage_scope3_zero (r : YearlyRecord)
    (hl : r.local_t = 0) (hn : r.exp_n_t = 0) (hs : r.exp_s_t = 0)
    (_ha : r.cap_allowed_t ≠ 0) (_ho : r.cap_over_t ≠ 0) :
    scope3_total_tco2 r = 0 := by
  simp [scope3_total_tco2, scope3_local_tco2, scope3_exp_n_tco2, scope3_exp_s_tco2,
    scope3_local_allowed_kgco2, scope3_local_over_kgco2, trips_local_allowed,
    trips_local_over, scope3_exp_n_allowed_kgco2, scope3_exp_n_over_kgco2,
    trips_exp_n_allowed, trips_exp_n_over, scope3_exp_s_allowed_kgco2,
    scope3_exp_s_over_kgco2, trips_exp_s_allowed, trips_exp_s_over, hl, hn, hs]

/-- C9 witness: the statement evaluated on the zero-tonnage record. -/
theorem C9_zero_tonnage_scope3_zero_witness :
    scope3_total_tco2 zeroTonnageRecord = 0 :=
  C9_zero_tonnage_scope3_zero zeroTonnageRecord rfl rfl rfl (by decide) (by decide)

/-- A member of the batch bounds the clinker_ratio column maximum from
below. -/
theorem clinkerMax_ge (s : YearlyRecord) :
    ∀ batch : List YearlyRecord, s ∈ batch →
      ∃ m, clinkerMax batch = some m ∧ s.clinker_ratio ≤ m := by
  intro batch
  induction batch with
  | nil => intro h; cases h
  | cons a t ih =>
      intro hs
      rcases List.mem_cons.mp hs with h | h
      · subst h
        cases ht : clinkerMax t with
        | none => exact ⟨s.clinker_ratio, by simp [clinkerMax, ht], le_refl _⟩
        | some m' =>
            exact ⟨max s.clinker_ratio m', by simp [clinkerMax, ht], le_max_left _ _⟩
      · obtain ⟨m', hm', hle⟩ := ih h
        exact ⟨max a.clinker_ratio m', by simp [clinkerMax, hm'],
          le_trans hle (le_max_right _ _)⟩

/-- An upper bound on every clinker_ratio of the batch bounds the column
maximum. -/
theorem clinkerMax_le (b : ℚ) :
    ∀ batch : List YearlyRecord, (∀ s ∈ batch, s.clinker_ratio ≤ b) →
      ∀ m, clinkerMax batch = some m → m ≤ b := by
  intro batch
  induction batch with
  | nil => intro _ m hm; simp [clinkerMax] at hm
  | cons a t ih =>
      intro h m hm
      cases ht : clinkerMax t with
      | none =>
          simp [clinkerMax, ht] at hm
          exact hm ▸ h a (List.mem_cons_self a t)
      | some m' =>
          simp [clinkerMax, ht] at hm
          exact hm ▸ max_le (h a (List.mem_cons_self a t))
            (ih (fun s hs => h s (List.mem_cons_of_mem a hs)) m' ht)

/-- A single clinker_ratio above 1.5 anywhere in the batch triggers the
batch-wide rescale branch of line 125. -/
theorem needsRescale_of_mem (batch : List YearlyRecord) (s : YearlyRecord)
    (hs : s ∈ batch) (h : 3 / 2 < s.clinker_ratio) :
    needsClinkerRescale batch = true := by
  obtain ⟨m, hm, hle⟩ := clinkerMax_ge s batch hs
  simp only [needsClinkerRescale, hm, decide_eq_true_eq]
  linarith

/-- When no clinker_ratio of the batch exceeds 1.5, the rescale branch of
line 125 is not taken. -/
theorem noRescale_of_le (batch : List YearlyRecord)
    (h : ∀ s ∈ batch, s.clinker_ratio ≤ 3 / 2) :
    needsClinkerRescale batch = false := by
  cases hm : clinkerMax batch with
  | none => simp [needsClinkerRescale, hm]
  | some m =>
      simp only [needsClinkerRescale, hm, decide_eq_false_iff_not, not_lt]
      exact clinkerMax_le (3 / 2) batch h m hm

/-- C2 counterexample: in a two-row batch whose other row holds 80, the
first row entered as clinker_ratio 70 produces Scope 1b 350,000 tCO2,
while the same row entered as 0.70 produces 3,500 tCO2: the batch-max
heuristic divides the already-decimal 0.70 by 100 again, so the two
inputs are not treated identically on every batch. -/
theorem C2_counterexample :
    r_C2.clinker_ratio = 70 ∧
    ({ r_C2 with clinker_ratio := 7 / 10 } : YearlyRecord).clinker_ratio = 7 / 10 ∧
    (runPipeline [r_C2, s_C2]).head?.map (fun o => o.scope1b_calcination_tco2) =
      some 350000 ∧
    (runPipeline [{ r_C2 with clinker_ratio := 7 / 10 }, s_C2]).head?.map
      (fun o => o.scope1b_calcination_tco2) = some 3500 ∧
    (350000 : ℚ) ≠ 3500 := by
  refine ⟨rfl, rfl, ?_, ?_, by norm_num⟩
  · have h1 : needsClinkerRescale [r_C2, s_C2] = true :=
      needsRescale_of_mem _ s_C2 (by simp) (by norm_num [s_C2, baseRecord])
    rw [runPipeline, normalizeClinker, if_pos h1]
    norm_num [rescaleClinker, outputRow, scope1b_calcination_tco2, clinker_t,
      CALC_EF_IS_PER_CLINKER, r_C2, baseRecord]
  · have h2 : needsClinkerRescale [{ r_C2 with clinker_ratio := 7 / 10 }, s_C2] = true :=
      needsRescale_of_mem _ s_C2 (by simp) (by norm_num [s_C2, baseRecord])
    rw [runPipeline, normalizeClinker, if_pos h2]
    norm_num [rescaleClinker, outputRow, scope1b_calcination_tco2, clinker_t,
      CALC_EF_IS_PER_CLINKER, r_C2, baseRecord]

/-- C2 amended: a row entered with clinker_ratio 70 produces the same
output row as the same row entered with 0.70 whenever no other row of
the batch has clinker_ratio above 1.5 (in particular in a single-row
batch); and whenever the batch maximum exceeds 1.5, the division by 100
is applied to every row of the batch. -/
theorem C2_clinker_normalization (r : YearlyRecord) (rest : List YearlyRecord)
    (h70 : r.clinker_ratio = 70)
    (hrest : ∀ s ∈ rest, s.clinker_ratio ≤ 3 / 2) :
    (runPipeline (r :: rest)).head? =
      (runPipeline ({ r with clinker_ratio := 7 / 10 } :: rest)).head? ∧
    ∀ batch : List YearlyRecord, needsClinkerRescale batch = true →
      normalizeClinker batch = batch.map rescaleClinker := by
  constructor
  · have h1 : needsClinkerRescale (r :: rest) = true :=
      needsRescale_of_mem _ r (List.mem_cons_self r rest) (by rw [h70]; norm_num)
    have h2 : needsClinkerRescale ({ r with clinker_ratio := 7 / 10 } :: rest) = false := by
      apply noRescale_of_le
      intro s hs
      rcases List.mem_cons.mp hs with h | h
      · subst h; norm_num
      · exact hrest s h
    have hr : rescaleClinker r = { r with clinker_ratio := 7 / 10 } := by
      unfold rescaleClinker
      rw [h70]
      norm_num
    rw [runPipeline, runPipeline, normalizeClinker, normalizeClinker,
      if_pos h1, if_neg (by simp [h2])]
    simp [hr]
  · intro batch hb
    rw [normalizeClinker, if_pos hb]

/-- C2 witness: the amended statement on the single-row batch of r_C2. -/
theorem C2_clinker_normalization_witness :
    (runPipeline [r_C2]).head? =
      (runPipeline [{ r_C2 with clinker_ratio := 7 / 10 }]).head? :=
  (C2_clinker_normalization r_C2 [] rfl (by simp)).1

/-- C7: a record with non-negative numeric inputs and non-zero truck
capacities has every derived output non-negative: both Scope 1 parts and
their total, Scope 2, the three Scope 3 legs and their total, and the
total emissions. -/
theorem C7_outputs_nonneg (r : YearlyRecord) (h : NonnegInputs r)
    (_hca : r.cap_allowed_t ≠ 0) (_hco : r.cap_over_t ≠ 0) :
    0 ≤ scope1a_combustion_tco2 r ∧ 0 ≤ scope1b_calcination_tco2 r ∧
    0 ≤ scope1_total_tco2 r ∧ 0 ≤ scope2_electricity_tco2 r ∧
    0 ≤ scope3_local_tco2 r ∧ 0 ≤ scope3_exp_n_tco2 r ∧ 0 ≤ scope3_exp_s_tco2 r ∧
    0 ≤ scope3_total_tco2 r ∧ 0 ≤ total_emissions_tco2 r := by
  obtain ⟨_, hc, hl, _, hes, hen, hcoal, helec, hcr, hncv, hco2, hox, hcal, hgrid,
    hcapa, hcapo, hefa, hefo, hdl, hdn, hds⟩ := h
  have hAF : (0 : ℚ) ≤ ALLOWED_FRAC := by norm_num [ALLOWED_FRAC]
  have hOF : (0 : ℚ) ≤ OVERLOAD_FRAC := by norm_num [OVERLOAD_FRAC]
  have h1a : 0 ≤ scope1a_combustion_tco2 r :=
    div_nonneg (mul_nonneg (mul_nonneg (mul_nonneg (mul_nonneg hcoal hc) hncv) hco2) hox)
      (by norm_num)
  have h1b : 0 ≤ scope1b_calcination_tco2 r := by
    simp only [scope1b_calcination_tco2, CALC_EF_IS_PER_CLINKER, if_true, clinker_t]
    exact mul_nonneg (mul_nonneg hc hcr) hcal
  have h2 : 0 ≤ scope2_electricity_tco2 r :=
    div_nonneg (mul_nonneg (mul_nonneg helec hc) hgrid) (by norm_num)
  have h3l : 0 ≤ scope3_local_tco2 r :=
    div_nonneg
      (add_nonneg
        (mul_nonneg hAF
          (mul_nonneg (mul_nonneg (div_nonneg hl hcapa) hdl) hefa))
        (mul_nonneg hOF
          (mul_nonneg (mul_nonneg (div_nonneg hl hcapo) hdl) hefo)))
      (by norm_num)
  have h3n : 0 ≤ scope3_exp_n_tco2 r :=
    div_nonneg
      (add_nonneg
        (mul_nonneg hAF
          (mul_nonneg (mul_nonneg (div_nonneg hen hcapa) hdn) hefa))
        (mul_nonneg hOF
          (mul_nonneg (mul_nonneg (div_nonneg hen hcapo) hdn) hefo)))
      (by norm_num)
  have h3s : 0 ≤ scope3_exp_s_tco2 r :=
    div_nonneg
      (add_nonneg
        (mul_nonneg hAF
          (mul_nonneg (mul_nonneg (div_nonneg hes hcapa) hds) hefa))
        (mul_nonneg hOF
          (mul_nonneg (mul_nonneg (div_nonneg hes hcapo) hds) hefo)))
      (by norm_num)
  have h1 : 0 ≤ scope1_total_tco2 r := add_nonneg h1a h1b
  have h3 : 0 ≤ scope3_total_tco2 r := add_nonneg (add_nonneg h3l h3n) h3s
  exact ⟨h1a, h1b, h1, h2, h3l, h3n, h3s, h3, add_nonneg (add_nonneg h1 h2) h3⟩

/-- C7 witness: the hypotheses and the last output bound on the base
record. -/
theorem C7_outputs_nonneg_witness :
    NonnegInputs baseRecord ∧ 0 ≤ total_emissions_tco2 baseRecord :=
  ⟨by norm_num [NonnegInputs, baseRecord],
    (C7_outputs_nonneg baseRecord (by norm_num [NonnegInputs, baseRecord])
      (by norm_num [baseRecord]) (by norm_num [baseRecord])).2.2.2.2.2.2.2.2⟩

/-- C8 counterexample: the record r_C8 is a valid record (non-negative
fields, positive capacities, fractions in range) whose coal intensity,
electricity intensity and calcination factor are zero; doubling its
cement production leaves Scope 1a, Scope 1b and Scope 2 unchanged at
zero, so the increase is not strict for every valid record. -/
theorem C8_counterexample :
    r_C8.cement_t < r_C8'.cement_t ∧
    NonnegInputs r_C8 ∧ r_C8.cap_allowed_t ≠ 0 ∧ r_C8.cap_over_t ≠ 0 ∧
    ¬ (scope1a_combustion_tco2 r_C8 < scope1a_combustion_tco2 r_C8') ∧
    ¬ (scope1b_calcination_tco2 r_C8 < scope1b_calcination_tco2 r_C8') ∧
    ¬ (scope2_electricity_tco2 r_C8 < scope2_electricity_tco2 r_C8') := by
  refine ⟨by norm_num [r_C8, r_C8', baseRecord],
    by norm_num [NonnegInputs, r_C8, baseRecord],
    by norm_num [r_C8, baseRecord], by norm_num [r_C8, baseRecord], ?_, ?_, ?_⟩ <;>
    norm_num [scope1a_combustion_tco2, scope1b_calcination_tco2,
      scope2_electricity_tco2, clinker_t, CALC_EF_IS_PER_CLINKER,
      r_C8, r_C8', baseRecord]

/-- C8 amended: increasing cement_t with all other fields fixed strictly
increases Scope 1a, Scope 1b (clinker basis) and Scope 2 whenever the
fixed factors multiplying cement_t are positive (coal intensity, ncv,
combustion EF and oxidized fraction for Scope 1a; clinker ratio and
calcination EF for Scope 1b; electricity intensity and grid EF for Scope
2); each of the three outputs is linear in cement_t. -/
theorem C8_monotone_in_cement (r : YearlyRecord) (c : ℚ)
    (hc : r.cement_t < c)
    (h1a : 0 < r.coal_int_kgpt * r.ncv * r.co2_ef_tco2_per_tj * r.oxid_frac)
    (h1b : 0 < r.clinker_ratio * r.calc_ef)
    (h2 : 0 < r.elec_int_kwhpt * r.grid_ef_kg_per_kwh) :
    scope1a_combustion_tco2 r < scope1a_combustion_tco2 { r with cement_t := c } ∧
    scope1b_calcination_tco2 r < scope1b_calcination_tco2 { r with cement_t := c } ∧
    scope2_electricity_tco2 r < scope2_electricity_tco2 { r with cement_t := c } ∧
    ∀ s : YearlyRecord,
      scope1a_combustion_tco2 s =
        s.cement_t * (s.coal_int_kgpt * s.ncv * s.co2_ef_tco2_per_tj * s.oxid_frac
          / 1000000) ∧
      scope1b_calcination_tco2 s = s.cement_t * (s.clinker_ratio * s.calc_ef) ∧
      scope2_electricity_tco2 s =
        s.cement_t * (s.elec_int_kwhpt * s.grid_ef_kg_per_kwh / 1000) := by
  have lin : ∀ s : YearlyRecord,
      scope1a_combustion_tco2 s =
        s.cement_t * (s.coal_int_kgpt * s.ncv * s.co2_ef_tco2_per_tj * s.oxid_frac
          / 1000000) ∧
      scope1b_calcination_tco2 s = s.cement_t * (s.clinker_ratio * s.calc_ef) ∧
      scope2_electricity_tco2 s =
        s.cement_t * (s.elec_int_kwhpt * s.grid_ef_kg_per_kwh / 1000) := by
    intro s
    refine ⟨?_, ?_, ?_⟩
    · unfold scope1a_combustion_tco2; ring
    · simp only [scope1b_calcination_tco2, CALC_EF_IS_PER_CLINKER, if_true, clinker_t]
      ring
    · unfold scope2_electricity_tco2; ring
  have proj1a : ({ r with cement_t := c } : YearlyRecord).coal_int_kgpt *
      ({ r with cement_t := c } : YearlyRecord).ncv *
      ({ r with cement_t := c } : YearlyRecord).co2_ef_tco2_per_tj *
      ({ r with cement_t := c } : YearlyRecord).oxid_frac =
      r.coal_int_kgpt * r.ncv * r.co2_ef_tco2_per_tj * r.oxid_frac := rfl
  refine ⟨?_, ?_, ?_, lin⟩
  · rw [(lin r).1, (lin { r with cement_t := c }).1]
    exact mul_lt_mul_of_pos_right hc (div_pos h1a (by norm_num))
  · rw [(lin r).2.1, (lin { r with cement_t := c }).2.1]
    exact mul_lt_mul_of_pos_right hc h1b
  · rw [(lin r).2.2, (lin { r with cement_t := c }).2.2]
    exact mul_lt_mul_of_pos_right hc (div_pos h2 (by norm_num))

/-- C8 witness: strict increase on the base record when cement doubles. -/
theorem C8_monotone_in_cement_witness :
    scope1a_combustion_tco2 baseRecord <
      scope1a_combustion_tco2 { baseRecord with cement_t := 2000000 } ∧
    scope1b_calcination_tco2 baseRecord <
      scope1b_calcination_tco2 { baseRecord with cement_t := 2000000 } ∧
    scope2_electricity_tco2 baseRecord <
      scope2_electricity_tco2 { baseRecord with cement_t := 2000000 } :=
  have h := C8_monotone_in_cement baseRecord 2000000 (by norm_num [baseRecord])
    (by norm_num [baseRecord]) (by norm_num [baseRecord]) (by norm_num [baseRecord])
  ⟨h.1, h.2.1, h.2.2.1⟩

/-- Composing a field-preserving row map with the output construction
keeps the six pass-through columns. -/
theorem passThrough_map (f : YearlyRecord → YearlyRecord)
    (hf : ∀ r : YearlyRecord, (f r).year = r.year ∧ (f r).cement_t = r.cement_t ∧
      (f r).local_t = r.local_t ∧ (f r).exp_n_t = r.exp_n_t ∧
      (f r).exp_s_t = r.exp_s_t ∧ (f r).total_exp_t = r.total_exp_t) :
    ∀ l : List YearlyRecord, List.Forall₂ passThrough l ((l.map f).map outputRow) := by
  intro l
  induction l with
  | nil => simp
  | cons a t ih =>
      simp only [List.map_cons]
      exact List.Forall₂.cons
        ⟨(hf a).1, (hf a).2.1, (hf a).2.2.1, (hf a).2.2.2.1,
          (hf a).2.2.2.2.1, (hf a).2.2.2.2.2⟩ ih

/-- C10: in every batch the written output carries year, cement_t,
local_t, exp_n_t, exp_s_t and total_exp_t through from the (normalized)
input rows unchanged; total_exp_t is copied, never recomputed, so on a
row whose reported total exports are 710,000 against leg sums 700,000
the output keeps 710,000. -/
theorem C10_passthrough_columns :
    (∀ batch : List YearlyRecord, List.Forall₂ passThrough batch (runPipeline batch)) ∧
    runPipeline [r_C10] = [outputRow r_C10] ∧
    (outputRow r_C10).total_exp_t = 710000 ∧
    (outputRow r_C10).exp_n_t + (outputRow r_C10).exp_s_t = 700000 ∧
    (710000 : ℚ) ≠ 700000 := by
  refine ⟨?_, ?_, rfl, by norm_num [outputRow, r_C10, baseRecord], by norm_num⟩
  · intro batch
    rw [runPipeline, normalizeClinker]
    by_cases hb : needsClinkerRescale batch = true
    · rw [if_pos hb]
      exact passThrough_map rescaleClinker
        (fun r => ⟨rfl, rfl, rfl, rfl, rfl, rfl⟩) batch
    · rw [if_neg hb]
      have h := passThrough_map id (fun r => ⟨rfl, rfl, rfl, rfl, rfl, rfl⟩) batch
      simpa using h
  · have h0 : needsClinkerRescale [r_C10] = false := by
      apply noRescale_of_le
      intro s hs
      rcases List.mem_cons.mp hs with h | h
      · subst h; norm_num [r_C10, baseRecord]
      · cases h
    rw [runPipeline, normalizeClinker, if_neg (by simp [h0])]
    rfl

namespace FloatModel

/-- C3 counterexample: on the one-row batch whose grid electricity EF
cell is missing, the script only counts the missing cell and prints a
warning; the pipeline still produces the output row, with NaN in the
Scope 2 and total-emissions columns, instead of failing with a
MissingFieldError. -/
theorem C3_counterexample :
    missingGridRow.grid_ef_kg_per_kwh = Val.nan ∧
    missingWarning [missingGridRow] = true ∧
    floatPipeline [missingGridRow] = [floatOutputRow missingGridRow] ∧
    (floatOutputRow missingGridRow).scope2_electricity_tco2 = Val.nan ∧
    (floatOutputRow missingGridRow).total_emissions_tco2 = Val.nan := by
  refine ⟨rfl, by decide, ?_, ?_, ?_⟩
  · have h0 : needsClinkerRescale [missingGridRow] = false := by
      norm_num [needsClinkerRescale, clinkerMax, vmaxPair, missingGridRow, presentRow]
    rw [floatPipeline, normalizeClinker, if_neg (by simp [h0])]
    rfl
  · norm_num [floatOutputRow, scope2_electricity_tco2, vmul, vdiv,
      missingGridRow, presentRow]
  · norm_num [floatOutputRow, total_emissions_tco2, scope1_total_tco2,
      scope1a_combustion_tco2, scope1b_calcination_tco2, clinker_t,
      CALC_EF_IS_PER_CLINKER, scope2_electricity_tco2, scope3_total_tco2,
      scope3_local_tco2, scope3_local_allowed_kgco2, scope3_local_over_kgco2,
      trips_local_allowed, trips_local_over, scope3_exp_n_tco2, scope3_exp_s_tco2,
      vadd, vmul, vdiv, ALLOWED_FRAC, OVERLOAD_FRAC, missingGridRow, presentRow]

/-- C3 amended: the cleaning step of the script only counts missing cells
per column and prints a warning naming the affected columns; it never
raises, the batch is never aborted (the output has one row per input
row), and the missing grid EF makes the Scope 2 and total outputs of the
affected row NaN. -/
theorem C3_missing_field_warns_and_propagates :
    (∀ batch : List RawRecord, (floatPipeline batch).length = batch.length) ∧
    missingCount [missingGridRow] (fun r => r.grid_ef_kg_per_kwh) = 1 ∧
    missingTotal [missingGridRow] = 1 ∧
    missingWarning [missingGridRow] = true ∧
    (floatOutputRow missingGridRow).scope2_electricity_tco2 = Val.nan ∧
    (floatOutputRow missingGridRow).total_emissions_tco2 = Val.nan := by
  refine ⟨?_, by decide, by decide, by decide, ?_, ?_⟩
  · intro batch
    rw [floatPipeline, normalizeClinker]
    by_cases hb : needsClinkerRescale batch = true
    · rw [if_pos hb]; simp
    · rw [if_neg hb]; simp
  · norm_num [floatOutputRow, scope2_electricity_tco2, vmul, vdiv,
      missingGridRow, presentRow]
  · norm_num [floatOutputRow, total_emissions_tco2, scope1_total_tco2,
      scope1a_combustion_tco2, scope1b_calcination_tco2, clinker_t,
      CALC_EF_IS_PER_CLINKER, scope2_electricity_tco2, scope3_total_tco2,
      scope3_local_tco2, scope3_local_allowed_kgco2, scope3_local_over_kgco2,
      trips_local_allowed, trips_local_over, scope3_exp_n_tco2, scope3_exp_s_tco2,
      vadd, vmul, vdiv, ALLOWED_FRAC, OVERLOAD_FRAC, missingGridRow, presentRow]

/-- C4 counterexample: on the one-row batch with a zero allowed-load
capacity, the float division yields infinity, the pipeline produces the
output row for it (nothing is aborted), and its Scope 3 local and total
columns are infinite, instead of failing with a DivisionByZeroError. -/
theorem C4_counterexample :
    zeroCapAllowedRow.cap_allowed_t = Val.num 0 ∧
    floatPipeline [zeroCapAllowedRow] = [floatOutputRow zeroCapAllowedRow] ∧
    (floatOutputRow zeroCapAllowedRow).scope3_local_tco2 = Val.inf ∧
    (floatOutputRow zeroCapAllowedRow).total_emissions_tco2 = Val.inf := by
  refine ⟨rfl, ?_, ?_, ?_⟩
  · have h0 : needsClinkerRescale [zeroCapAllowedRow] = false := by
      norm_num [needsClinkerRescale, clinkerMax, vmaxPair, zeroCapAllowedRow, presentRow]
    rw [floatPipeline, normalizeClinker, if_neg (by simp [h0])]
    rfl
  · norm_num [floatOutputRow, scope3_local_tco2, scope3_local_allowed_kgco2,
      scope3_local_over_kgco2, trips_local_allowed, trips_local_over,
      vadd, vmul, vdiv, ALLOWED_FRAC, OVERLOAD_FRAC, zeroCapAllowedRow, presentRow]
  · norm_num [floatOutputRow, total_emissions_tco2, scope1_total_tco2,
      scope1a_combustion_tco2, scope1b_calcination_tco2, clinker_t,
      CALC_EF_IS_PER_CLINKER, scope2_electricity_tco2, scope3_total_tco2,
      scope3_local_tco2, scope3_local_allowed_kgco2, scope3_local_over_kgco2,
      trips_local_allowed, trips_local_over, scope3_exp_n_tco2, scope3_exp_s_tco2,
      vadd, vmul, vdiv, ALLOWED_FRAC, OVERLOAD_FRAC, zeroCapAllowedRow, presentRow]

/-- C4 amended: a zero truck capacity never raises and never aborts the
batch: the pipeline emits one output row per input row for every batch;
the zero-capacity division gives a trip count that is infinite for a
positive tonnage, negative infinite for a negative tonnage and NaN for
the 0/0 case, for the allowed-load and the overload capacity alike; on
the concrete rows the non-finite values propagate into the affected
Scope 3 leg and the total instead of an error. -/
theorem C4_zero_capacity_no_abort :
    (∀ batch : List RawRecord, (floatPipeline batch).length = batch.length) ∧
    (∀ r : RawRecord, ∀ t : ℚ, r.cap_allowed_t = Val.num 0 → r.local_t = Val.num t →
      trips_local_allowed r =
        if 0 < t then Val.inf else if t < 0 then Val.neginf else Val.nan) ∧
    (∀ r : RawRecord, ∀ t : ℚ, r.cap_over_t = Val.num 0 → r.local_t = Val.num t →
      trips_local_over r =
        if 0 < t then Val.inf else if t < 0 then Val.neginf else Val.nan) ∧
    trips_local_allowed zeroCapAllowedRow = Val.inf ∧
    (floatOutputRow zeroCapAllowedRow).scope3_local_tco2 = Val.inf ∧
    (floatOutputRow zeroCapAllowedRow).total_emissions_tco2 = Val.inf ∧
    floatPipeline [zeroCapAllowedRow] = [floatOutputRow zeroCapAllowedRow] ∧
    trips_local_over zeroCapOverRow = Val.inf ∧
    (floatOutputRow zeroCapOverRow).scope3_local_tco2 = Val.inf ∧
    floatPipeline [zeroCapOverRow] = [floatOutputRow zeroCapOverRow] ∧
    trips_local_allowed zeroCapZeroTonnageRow = Val.nan ∧
    (floatOutputRow zeroCapZeroTonnageRow).scope3_local_tco2 = Val.nan ∧
    floatPipeline [zeroCapZeroTonnageRow] = [floatOutputRow zeroCapZeroTonnageRow] := by
  refine ⟨?_, ?_, ?_, ?_, ?_, ?_, ?_, ?_, ?_, ?_, ?_, ?_, ?_⟩
  · intro batch
    rw [floatPipeline, normalizeClinker]
    by_cases hb : needsClinkerRescale batch = true
    · rw [if_pos hb]; simp
    · rw [if_neg hb]; simp
  · intro r t hcap hloc
    simp [trips_local_allowed, hcap, hloc, vdiv]
  · intro r t hcap hloc
    simp [trips_local_over, hcap, hloc, vdiv]
  · norm_num [trips_local_allowed, vdiv, zeroCapAllowedRow, presentRow]
  · norm_num [floatOutputRow, scope3_local_tco2, scope3_local_allowed_kgco2,
      scope3_local_over_kgco2, trips_local_allowed, trips_local_over,
      vadd, vmul, vdiv, ALLOWED_FRAC, OVERLOAD_FRAC, zeroCapAllowedRow, presentRow]
  · norm_num [floatOutputRow, total_emissions_tco2, scope1_total_tco2,
      scope1a_combustion_tco2, scope1b_calcination_tco2, clinker_t,
      CALC_EF_IS_PER_CLINKER, scope2_electricity_tco2, scope3_total_tco2,
      scope3_local_tco2, scope3_local_allowed_kgco2, scope3_local_over_kgco2,
      trips_local_allowed, trips_local_over, scope3_exp_n_tco2, scope3_exp_s_tco2,
      vadd, vmul, vdiv, ALLOWED_FRAC, OVERLOAD_FRAC, zeroCapAllowedRow, presentRow]
  · have h0 : needsClinkerRescale [zeroCapAllowedRow] = false := by
      norm_num [needsClinkerRescale, clinkerMax, vmaxPair, zeroCapAllowedRow, presentRow]
    rw [floatPipeline, normalizeClinker, if_neg (by simp [h0])]
    rfl
  · norm_num [trips_local_over, vdiv, zeroCapOverRow, presentRow]
  · norm_num [floatOutputRow, scope3_local_tco2, scope3_local_allowed_kgco2,
      scope3_local_over_kgco2, trips_local_allowed, trips_local_over,
      vadd, vmul, vdiv, ALLOWED_FRAC, OVERLOAD_FRAC, zeroCapOverRow, presentRow]
  · have h0 : needsClinkerRescale [zeroCapOverRow] = false := by
      norm_num [needsClinkerRescale, clinkerMax, vmaxPair, zeroCapOverRow, presentRow]
    rw [floatPipeline, normalizeClinker, if_neg (by simp [h0])]
    rfl
  · norm_num [trips_local_allowed, vdiv, zeroCapZeroTonnageRow, presentRow]
  · norm_num [floatOutputRow, scope3_local_tco2, scope3_local_allowed_kgco2,
      scope3_local_over_kgco2, trips_local_allowed, trips_local_over,
      vadd, vmul, vdiv, ALLOWED_FRAC, OVERLOAD_FRAC, zeroCapZeroTonnageRow, presentRow]
  · have h0 : needsClinkerRescale [zeroCapZeroTonnageRow] = false := by
      norm_num [needsClinkerRescale, clinkerMax, vmaxPair, zeroCapZeroTonnageRow,
        presentRow]
    rw [floatPipeline, normalizeClinker, if_neg (by simp [h0])]
    rfl

end FloatModel

end HistoricalScopes
